import Mathlib

/-!
Shallow embedding of the Kuantum Kitchen game (src/main.py) and proofs of the
spec claims about it.

Modelling conventions:
- Python numbers are embedded exactly: int as Int or Nat, float arithmetic on
  outcome probabilities and the two meters as exact rationals.
- Python operations that can raise at runtime (ZeroDivisionError in the bias
  step of Order.collapse_state, a None lookup of actual_outcome) are embedded
  as Option-returning functions; none models the exception.
- Python objects are aliased mutable records; the world state therefore keeps
  a store (orders : Nat -> Order) keyed by order id, and the collections
  (active_orders, failed_orders, timelines, ...) hold ids, exactly as the
  CPython object graph shares one Order object between them.
- Randomness (random.random, random.randint, random.choice) is passed in as
  explicit parameters; bounds that randint guarantees become hypotheses.
- Presentation-only fields (dish enum, puzzle enum, curses I/O, message
  interpolation details) are not needed by any claim and are kept only where
  a claim mentions them.
-/

inductive OrderState where
  | SUPERPOSITION
  | COLLAPSED
  | FAILED
  | DELIVERED
deriving DecidableEq, Repr

def OrderState.value : OrderState → String
  | .SUPERPOSITION => "SUPERPOSITION"
  | .COLLAPSED => "COLLAPSED"
  | .FAILED => "FAILED"
  | .DELIVERED => "DELIVERED"

inductive ResourceType where
  | QUANTUM_ENERGY
  | PROBABILITY_STABILIZER
  | TIMELINE_TOKEN
deriving DecidableEq, Repr

def ResourceType.value : ResourceType → String
  | .QUANTUM_ENERGY => "Quantum Energy"
  | .PROBABILITY_STABILIZER => "Probability Stabilizer"
  | .TIMELINE_TOKEN => "Timeline Token"

/-- Iteration order of the resource dictionaries in the source
(dict insertion order in Python 3.7+). -/
def resourceOrder : List ResourceType :=
  [ResourceType.QUANTUM_ENERGY, ResourceType.PROBABILITY_STABILIZER,
   ResourceType.TIMELINE_TOKEN]

inductive TimelineEvent where
  | RESOURCE_BOOST
  | TIMELINE_SHIFT
  | QUANTUM_FLUCTUATION
  | REALITY_DISTORTION
deriving DecidableEq, Repr

/-- One element of Order.possible_outcomes: the dict
with keys description / satisfaction / reward_multiplier / probability. -/
structure Outcome where
  description : String
  satisfaction : Int
  reward_multiplier : ℚ
  probability : ℚ
deriving DecidableEq, Repr

/-- The Order object (src/main.py lines 49-66); dish and puzzle enums are
presentation-only and omitted. -/
structure Order where
  id : Nat
  state : OrderState
  time_limit : Int
  time_remaining : Int
  difficulty : Nat
  resource_requirements : ResourceType → Nat
  reward : Nat
  possible_outcomes : List Outcome
  actual_outcome : Option Outcome
  timeline : Nat

def sumProb (l : List Outcome) : ℚ :=
  (l.map fun oc => oc.probability).sum

/-- The Perfect outcome record: probability 0.2 + 0.1 * difficulty. -/
def perfectOutcome (dish : String) (difficulty : Nat) : Outcome :=
  { description := "Perfect " ++ dish, satisfaction := 100,
    reward_multiplier := 3/2, probability := 1/5 + (difficulty : ℚ) / 10 }

def goodOutcome (dish : String) : Outcome :=
  { description := "Good " ++ dish, satisfaction := 80,
    reward_multiplier := 1, probability := 2/5 }

def mediocreOutcome (dish : String) : Outcome :=
  { description := "Mediocre " ++ dish, satisfaction := 50,
    reward_multiplier := 7/10, probability := 3/10 }

def poorOutcome (dish : String) : Outcome :=
  { description := "Poor " ++ dish, satisfaction := 20,
    reward_multiplier := 3/10, probability := 1/10 }

/-- The list assembled by Order.generate_possible_outcomes before
normalization (lines 70-109): always Perfect and Good, plus Mediocre when
num_outcomes > 2 and Poor when num_outcomes > 3. -/
def outcomeList (dish : String) (difficulty numOutcomes : Nat) : List Outcome :=
  [perfectOutcome dish difficulty, goodOutcome dish]
    ++ (if 2 < numOutcomes then [mediocreOutcome dish] else [])
    ++ (if 3 < numOutcomes then [poorOutcome dish] else [])

/-- Order.generate_possible_outcomes (lines 68-116): assemble the subset and
divide every probability by the subset total. numOutcomes is the
random.randint(2, 4) draw. -/
def generate_possible_outcomes (dish : String) (difficulty numOutcomes : Nat) :
    List Outcome :=
  let outcomes := outcomeList dish difficulty numOutcomes
  let total_prob := sumProb outcomes
  outcomes.map fun oc => { oc with probability := oc.probability / total_prob }

/-- One step of the bias loop in Order.collapse_state (lines 127-131).
count is len(modified_outcomes); when an outcome has satisfaction < 80 and
count = 2 the source divides bonus by zero (ZeroDivisionError), modelled as
none. -/
def biasOutcome (count : Nat) (bonus : ℚ) (oc : Outcome) : Option Outcome :=
  if 80 ≤ oc.satisfaction then
    some { oc with probability := oc.probability + bonus }
  else if count = 2 then
    none
  else
    some { oc with probability := oc.probability - bonus / ((count : ℚ) - 2) }

/-- The whole bias loop over the outcome list. -/
def biasAll (count : Nat) (bonus : ℚ) : List Outcome → Option (List Outcome)
  | [] => some []
  | oc :: rest =>
    match biasOutcome count bonus oc with
    | none => none
    | some oc2 =>
      match biasAll count bonus rest with
      | none => none
      | some rest2 => some (oc2 :: rest2)

/-- The selection loop of Order.collapse_state (lines 139-145): walk the
list accumulating probability mass, pick the first outcome with
rand <= cumulative_prob. -/
def selectOutcome (r : ℚ) : ℚ → List Outcome → Option Outcome
  | _, [] => none
  | c, oc :: rest =>
    if r ≤ c + oc.probability then some oc
    else selectOutcome r (c + oc.probability) rest

/-- Order.collapse_state (lines 118-147). bonus is bonus_probability, r is
the random.random() draw. Note that modified_outcomes = possible_outcomes.copy()
is a SHALLOW copy in the source: the outcome dicts are shared, so the bias and
the re-normalization write through to possible_outcomes; the embedding
therefore stores the modified list back into possible_outcomes. A
ZeroDivisionError (bias with 2 outcomes of satisfaction < 80, or a zero total
in the re-normalization) is modelled as none. -/
def Order.collapse_state (o : Order) (bonus r : ℚ) : Option Order :=
  if o.state ≠ OrderState.SUPERPOSITION then
    some o
  else
    let count := o.possible_outcomes.length
    let biased :=
      if 0 < bonus then
        match biasAll count bonus o.possible_outcomes with
        | none => none
        | some bl =>
          let total_prob := sumProb bl
          if total_prob = 0 then none
          else some (bl.map fun oc =>
            { oc with probability := oc.probability / total_prob })
      else some o.possible_outcomes
    match biased with
    | none => none
    | some modified =>
      some { o with
        possible_outcomes := modified,
        actual_outcome :=
          match selectOutcome r 0 modified with
          | some oc => some oc
          | none => o.actual_outcome,
        state := OrderState.COLLAPSED }

/-- Order.update_time (lines 149-154): always decrement, fail and return
true when the new value is <= 0 while still in SUPERPOSITION. -/
def Order.update_time (o : Order) : Order × Bool :=
  let o2 := { o with time_remaining := o.time_remaining - 1 }
  if o2.time_remaining ≤ 0 ∧ o2.state = OrderState.SUPERPOSITION then
    ({ o2 with state := OrderState.FAILED }, true)
  else
    (o2, false)

/-- The simplified quantum-state transform of MiniPuzzle.setup_puzzle for
initial state ket-zero (lines 261-267). -/
def stepZero (s op : String) : String :=
  if op = "X" then (if s = "|0⟩" then "|1⟩" else "|0⟩")
  else if op = "H" then (if s = "|0⟩" then "|+⟩" else "|-⟩")
  else s

/-- Same transform for initial state ket-one (lines 268-274). -/
def stepOne (s op : String) : String :=
  if op = "X" then (if s = "|1⟩" then "|0⟩" else "|1⟩")
  else if op = "H" then (if s = "|1⟩" then "|-⟩" else "|+⟩")
  else s

/-- The deterministic final-state computation of the QUANTUM_STATE puzzle
(lines 260-277). -/
def quantum_final_state (initial : String) (ops : List String) : String :=
  if initial = "|0⟩" then ops.foldl stepZero "|0⟩"
  else if initial = "|1⟩" then ops.foldl stepOne "|1⟩"
  else if ops.length % 2 = 0 then "|+⟩" else "|-⟩"

/-- The QUANTUM_STATE branch of MiniPuzzle: the stored fields that
check_solution consumes. -/
structure QuantumStatePuzzle where
  initial_state : String
  ops : List String
  solution : String

/-- MiniPuzzle.setup_puzzle for QUANTUM_STATE (lines 250-281): the solution
is the computed final state. -/
def setup_quantum_puzzle (initial : String) (ops : List String) :
    QuantumStatePuzzle :=
  { initial_state := initial, ops := ops,
    solution := quantum_final_state initial ops }

/-- Embedding of the Python str.lower method (maps every character to lower
case). -/
def pyLower (s : String) : String :=
  String.mk (s.data.map Char.toLower)

/-- Embedding of the Python str.strip method (drops whitespace from both
ends). -/
def pyStrip (s : String) : String :=
  String.mk
    (((s.data.dropWhile Char.isWhitespace).reverse.dropWhile
      Char.isWhitespace).reverse)

/-- MiniPuzzle.check_solution for QUANTUM_STATE (lines 327-329):
user_answer.strip().lower() == self.solution.lower(). -/
def QuantumStatePuzzle.check_solution (p : QuantumStatePuzzle)
    (user_answer : String) : Bool :=
  pyLower (pyStrip user_answer) == pyLower p.solution

/-- Embedding of the Python int() conversion on a float/rational value:
truncation toward zero. -/
def pyInt (q : ℚ) : Int :=
  if q < 0 then -(Int.floor (-q)) else Int.floor q

/-- The KuantumKitchen world state (lines 357-381). orders is the object
store keyed by order id; collections hold ids. Presentation-only fields
(current_phase, kitchen_units, tutorial_shown) are omitted. -/
structure Kitchen where
  day : Nat
  resources : ResourceType → Int
  active_orders : List Nat
  completed_orders : List Nat
  failed_orders : List Nat
  orders : Nat → Order
  score : Int
  customer_satisfaction : ℚ
  reality_stability : ℚ
  timelines : Nat → List Nat
  max_active_orders : Nat
  available_orders : List Nat
  special_events : List TimelineEvent

def updateStore (store : Nat → Order) (oid : Nat) (o : Order) : Nat → Order :=
  fun n => if n = oid then o else store n

/-- KuantumKitchen.accept_order (lines 390-404). -/
def Kitchen.accept_order (k : Kitchen) (order_idx : Nat) :
    Kitchen × Bool × String :=
  match k.available_orders[order_idx]? with
  | none => (k, false, "Invalid order index")
  | some oid =>
    if k.max_active_orders ≤ k.active_orders.length then
      (k, false, "You can only handle so many active orders at once")
    else
      let o := k.orders oid
      ({ k with
          active_orders := k.active_orders ++ [oid],
          timelines := fun t =>
            if t = o.timeline then k.timelines t ++ [oid] else k.timelines t,
          available_orders := k.available_orders.eraseIdx order_idx },
        true, "Accepted order")

/-- KuantumKitchen.reject_order (lines 406-413). -/
def Kitchen.reject_order (k : Kitchen) (order_idx : Nat) :
    Kitchen × Bool × String :=
  match k.available_orders[order_idx]? with
  | none => (k, false, "Invalid order index")
  | some _ =>
    ({ k with
        available_orders := k.available_orders.eraseIdx order_idx,
        customer_satisfaction := max 0 (k.customer_satisfaction - 2) },
      true, "Order rejected")

/-- The resource check loop of prepare_order (lines 426-428): the first
resource kind, in dict order, whose balance is below the requirement. -/
def firstInsufficient (res : ResourceType → Int) (req : ResourceType → Nat) :
    Option ResourceType :=
  resourceOrder.find? fun t => res t < (req t : Int)

/-- The refund added by prepare_order (lines 461-464) to resource kind t when
the refund draw picked rc: 1 for satisfaction >= 80, one more for >= 90. -/
def refundAmt (oc : Outcome) (rc t : ResourceType) : Int :=
  if 80 ≤ oc.satisfaction ∧ t = rc then
    (if 90 ≤ oc.satisfaction then 2 else 1)
  else 0

/-- The state mutation of the success path of prepare_order (lines 437-464):
debit all requirements, store the collapsed order, shift satisfaction by
(satisfaction - 50) / 10 clamped to [0,100], add the reward to the score,
drop stability by (50 - satisfaction) / 10 for outcomes below 50, and refund
resource kind rc on high satisfaction. -/
def prepareApply (k : Kitchen) (oid : Nat) (rc : ResourceType)
    (co : Order) (oc : Outcome) : Kitchen :=
  let order := k.orders oid
  let res1 := fun t => k.resources t - (order.resource_requirements t : Int)
  let res2 :=
    if 80 ≤ oc.satisfaction then
      fun t => if t = rc then res1 t + (if 90 ≤ oc.satisfaction then 2 else 1)
               else res1 t
    else res1
  { k with
      orders := updateStore k.orders oid co,
      resources := res2,
      customer_satisfaction :=
        min 100 (max 0 (k.customer_satisfaction
          + ((oc.satisfaction : ℚ) - 50) / 10)),
      score := k.score + pyInt ((order.reward : ℚ) * oc.reward_multiplier),
      reality_stability :=
        if oc.satisfaction < 50 then
          max 0 (k.reality_stability - (50 - (oc.satisfaction : ℚ)) / 10)
        else k.reality_stability }

/-- KuantumKitchen.prepare_order (lines 415-467). puzzleCompleted is the
result of solve_puzzle (terminal interaction), r the random.random() draw
inside collapse_state, rc the random.choice refund draw. A crash inside
collapse (ZeroDivisionError) is none. -/
def Kitchen.prepare_order (k : Kitchen) (order_idx : Nat)
    (puzzleCompleted : Bool) (r : ℚ) (rc : ResourceType) :
    Option (Kitchen × Bool × String) :=
  match k.active_orders[order_idx]? with
  | none => some (k, false, "Invalid order index")
  | some oid =>
    let order := k.orders oid
    if order.state ≠ OrderState.SUPERPOSITION then
      some (k, false, "Cannot prepare order in " ++ order.state.value
        ++ " state")
    else
      match firstInsufficient k.resources order.resource_requirements with
      | some t0 => some (k, false, "Not enough " ++ t0.value)
      | none =>
        let bonus : ℚ := if puzzleCompleted then 1/5 else 0
        match Order.collapse_state order bonus r with
        | none => none
        | some co =>
          match co.actual_outcome with
          | none => none
          | some oc =>
            some (prepareApply k oid rc co oc, true,
              if oc.satisfaction < 50 then
                "Prepared order. Reality distortion detected!"
              else "Prepared order. Earned points.")

/-- The first pass of KuantumKitchen.update_time (lines 536-539): tick one
active order and record it when it expired. -/
def tickOne (p : (Nat → Order) × List Nat) (oid : Nat) :
    (Nat → Order) × List Nat :=
  let o := p.1 oid
  if o.state = OrderState.SUPERPOSITION then
    let res := o.update_time
    (updateStore p.1 oid res.1, if res.2 then p.2 ++ [oid] else p.2)
  else p

/-- The second pass of KuantumKitchen.update_time (lines 542-551): move one
expired order from active to failed and apply the -5 penalties. The timelines
index is NOT touched here, exactly as in the source. -/
def expireOne (k : Kitchen) (oid : Nat) : Kitchen :=
  { k with
      active_orders := k.active_orders.erase oid,
      failed_orders := k.failed_orders ++ [oid],
      customer_satisfaction := max 0 (k.customer_satisfaction - 5),
      reality_stability := max 0 (k.reality_stability - 5) }

/-- KuantumKitchen.update_time (lines 532-553). -/
def Kitchen.update_time (k : Kitchen) : Kitchen × Bool :=
  let ticked := k.active_orders.foldl tickOne (k.orders, [])
  let k3 := ticked.2.foldl expireOne { k with orders := ticked.1 }
  (k3, !ticked.2.isEmpty)

/-- The delivery-phase forced end of day (lines 874-883): -3 satisfaction per
still-active order, then both the active list and the timeline index are
cleared. -/
def Kitchen.end_day_abandon (k : Kitchen) : Kitchen :=
  { k with
      customer_satisfaction :=
        k.active_orders.foldl (fun s _ => max 0 (s - 3))
          k.customer_satisfaction,
      active_orders := [],
      timelines := fun _ => [] }

/-- The random draws of one special event: which event fired and the
per-event randomness (boost resource and amount, timeline-shift key
enumeration and reassignment, fluctuation choice, distortion loss). -/
inductive EventParams where
  | resourceBoost (rt : ResourceType) (amount : Nat)
  | timelineShift (keys : List Nat) (assign : Nat → Nat)
  | quantumFluctuation (choice : Option Nat)
  | realityDistortion (loss : Nat)

def eventTag : EventParams → TimelineEvent
  | .resourceBoost _ _ => TimelineEvent.RESOURCE_BOOST
  | .timelineShift _ _ => TimelineEvent.TIMELINE_SHIFT
  | .quantumFluctuation _ => TimelineEvent.QUANTUM_FLUCTUATION
  | .realityDistortion _ => TimelineEvent.REALITY_DISTORTION

/-- KuantumKitchen.trigger_special_event (lines 582-624). For TIMELINE_SHIFT,
keys enumerates the keys of the timelines dict and assign gives the
random.randint(1, min(2 + day // 3, 5)) draw per order; the dict is rebuilt
from scratch over exactly the orders found in the old index. -/
def Kitchen.trigger_special_event (k : Kitchen) (p : EventParams) : Kitchen :=
  let k1 := { k with special_events := k.special_events ++ [eventTag p] }
  match p with
  | .resourceBoost rt amount =>
    { k1 with resources := fun t =>
        if t = rt then k1.resources t + amount else k1.resources t }
  | .timelineShift keys assign =>
    let all_orders := (keys.map k1.timelines).flatten
    let store := all_orders.foldl
      (fun st oid => updateStore st oid { st oid with timeline := assign oid })
      k1.orders
    let tl := all_orders.foldl
      (fun tl oid => fun t =>
        if t = assign oid then tl t ++ [oid] else tl t)
      (fun _ => [])
    { k1 with orders := store, timelines := tl }
  | .quantumFluctuation choice =>
    match choice with
    | none => k1
    | some oid =>
      let o := k1.orders oid
      if o.state = OrderState.SUPERPOSITION then
        { k1 with orders := (updateStore k1.orders oid
            { o with time_remaining := min o.time_limit (o.time_remaining + 2) }) }
      else k1
  | .realityDistortion loss =>
    { k1 with reality_stability := max 0 (k1.reality_stability - loss) }

/-- The per-day resource replenishment of advance_day (lines 561-565). -/
def dailyAmount (day : Nat) : ResourceType → Nat
  | .QUANTUM_ENERGY => 5 + day / 2
  | .PROBABILITY_STABILIZER => 2 + day / 3
  | .TIMELINE_TOKEN => 1 + day / 4

/-- KuantumKitchen.advance_day (lines 555-580): optional special event, then
resource replenishment, stability regeneration 5 + satisfaction // 20 capped
at 100, day increment and the new active-order cap. -/
def Kitchen.advance_day (k : Kitchen) (ev : Option EventParams) : Kitchen :=
  let k1 := match ev with
    | some p => k.trigger_special_event p
    | none => k
  { k1 with
      resources := fun t => k1.resources t + (dailyAmount k1.day t : Int),
      reality_stability :=
        min 100 (k1.reality_stability
          + (5 + (Int.floor (k1.customer_satisfaction / 20) : ℚ))),
      day := k1.day + 1,
      max_active_orders := 3 + min ((k1.day + 1) / 3) 4 }

/-- Both meters inside their documented [0,100] range. -/
def metersOK (k : Kitchen) : Prop :=
  0 ≤ k.customer_satisfaction ∧ k.customer_satisfaction ≤ 100 ∧
  0 ≤ k.reality_stability ∧ k.reality_stability ≤ 100

/-- A concrete day-1 order exactly as Order.__init__ can produce it:
difficulty 1, the two-outcome distribution (probabilities 3/7 and 4/7 after
normalization), requirement of one Quantum Energy, reward 1 * 10 + 1 * 5. -/
def baseOrder : Order :=
  { id := 1000, state := OrderState.SUPERPOSITION, time_limit := 3,
    time_remaining := 3, difficulty := 1,
    resource_requirements := fun t =>
      match t with
      | ResourceType.QUANTUM_ENERGY => 1
      | _ => 0,
    reward := 15,
    possible_outcomes := generate_possible_outcomes "Quantum Burger" 1 2,
    actual_outcome := none, timeline := 2 }

/-- The initial KuantumKitchen state (lines 358-381). -/
def baseKitchen : Kitchen :=
  { day := 1,
    resources := fun t =>
      match t with
      | ResourceType.QUANTUM_ENERGY => 10
      | ResourceType.PROBABILITY_STABILIZER => 5
      | ResourceType.TIMELINE_TOKEN => 2,
    active_orders := [], completed_orders := [], failed_orders := [],
    orders := fun _ => baseOrder,
    score := 0, customer_satisfaction := 50, reality_stability := 100,
    timelines := fun _ => [], max_active_orders := 3,
    available_orders := [], special_events := [] }

/-- C1 scenario, step 0: the initial kitchen offering one day-1 order
(time limit 3, timeline 2). -/
def kC1 : Kitchen :=
  { baseKitchen with available_orders := [1000] }

/-- C1 scenario, step 1: the order is accepted (joins active_orders and the
timeline index). -/
def kC1a : Kitchen := (kC1.accept_order 0).1

/-- C1 scenario, step 2: time advances three times (the execution-phase t
command); on the third tick time_remaining reaches 0 and the order
expires. -/
def kC1b : Kitchen := kC1a.update_time.1.update_time.1.update_time.1

/-- C1 scenario, step 3: a Timeline Shift event fires on day 1 (timeline
range [1, min(2 + 1 / 3, 5)] = [1,2]), reassigning everything in the index
to timeline 1. -/
def kC1c : Kitchen :=
  kC1b.trigger_special_event (EventParams.timelineShift [2] fun _ => 1)

/-- C3 input: a freshly generated two-outcome order. -/
def oC3 : Order := baseOrder

/-- C2 witness input: the same shape of freshly generated two-outcome
order. -/
def oC2W : Order := baseOrder

/-- C6 witness inputs: superposition orders with one and two time units
left. -/
def oC6A : Order := { baseOrder with time_remaining := 1 }

def oC6B : Order := { baseOrder with time_remaining := 2 }

/-- C7 witness input: an order already collapsed. -/
def oC7W : Order :=
  { baseOrder with
      state := OrderState.COLLAPSED,
      actual_outcome := some (goodOutcome "Quantum Burger") }

/-- C5 witness: the spec example, balance 1 Quantum Energy against a
requirement of 2. -/
def oC5W : Order :=
  { baseOrder with
      resource_requirements := fun t =>
        match t with
        | ResourceType.QUANTUM_ENERGY => 2
        | _ => 0 }

def kC5W : Kitchen :=
  { baseKitchen with
      resources := fun t =>
        match t with
        | ResourceType.QUANTUM_ENERGY => 1
        | ResourceType.PROBABILITY_STABILIZER => 5
        | ResourceType.TIMELINE_TOKEN => 2,
      orders := fun _ => oC5W,
      active_orders := [1000] }

/-- C10 witness: the initial kitchen with one accepted two-outcome order;
a failed puzzle (bonus 0) and draw r = 0 select the Perfect outcome. -/
def kC10 : Kitchen := { baseKitchen with active_orders := [1000] }

/-- The Perfect outcome of a difficulty-1 two-outcome order after
normalization: probability (1/5 + 1/10) / (7/10) = 3/7. -/
def perfectW : Outcome :=
  { perfectOutcome "Quantum Burger" 1 with probability := 3/7 }

/-- The Good outcome of the same order after normalization:
probability (2/5) / (7/10) = 4/7. -/
def goodW : Outcome :=
  { goodOutcome "Quantum Burger" with probability := 4/7 }

/-- The order object after collapsing baseOrder with bonus 0 and draw
r = 0. -/
def coW : Order :=
  { baseOrder with
      possible_outcomes := [perfectW, goodW],
      actual_outcome := some perfectW,
      state := OrderState.COLLAPSED }

/-! Helper lemmas shared by the claim theorems. -/

theorem sumProb_nil : sumProb [] = 0 := rfl

theorem sumProb_cons (oc : Outcome) (l : List Outcome) :
    sumProb (oc :: l) = oc.probability + sumProb l := by
  simp [sumProb]

theorem sumProb_map_div (l : List Outcome) (t : ℚ) :
    sumProb (l.map fun oc => { oc with probability := oc.probability / t })
      = sumProb l / t := by
  induction l with
  | nil => simp [sumProb]
  | cons oc rest ih =>
    simp only [List.map_cons, sumProb_cons, ih]
    rw [add_div]

theorem sumProb_map_add (l : List Outcome) (b : ℚ) :
    sumProb (l.map fun oc => { oc with probability := oc.probability + b })
      = sumProb l + l.length * b := by
  induction l with
  | nil => simp [sumProb]
  | cons oc rest ih =>
    simp only [List.map_cons, sumProb_cons, ih, List.length_cons]
    push_cast
    ring

theorem sumProb_outcomeList_pos (dish : String) (d n : Nat) :
    0 < sumProb (outcomeList dish d n) := by
  have hd : (0:ℚ) ≤ (d:ℚ) := Nat.cast_nonneg d
  unfold outcomeList
  by_cases h2 : 2 < n <;> by_cases h3 : 3 < n <;>
    simp [h2, h3, sumProb, perfectOutcome, goodOutcome, mediocreOutcome,
      poorOutcome] <;>
    linarith

theorem sumProb_generate_eq_one (dish : String) (d n : Nat) :
    sumProb (generate_possible_outcomes dish d n) = 1 := by
  have hpos := sumProb_outcomeList_pos dish d n
  unfold generate_possible_outcomes
  rw [sumProb_map_div]
  exact div_self (ne_of_gt hpos)

theorem generate_two_length (dish : String) (d n : Nat) (hn : n ≤ 2) :
    (generate_possible_outcomes dish d n).length = 2 := by
  have h2 : ¬ 2 < n := by omega
  have h3 : ¬ 3 < n := by omega
  simp [generate_possible_outcomes, outcomeList, h2, h3]

theorem generate_two_sats (dish : String) (d n : Nat) (hn : n ≤ 2) :
    ∀ oc ∈ generate_possible_outcomes dish d n, 80 ≤ oc.satisfaction := by
  have h2 : ¬ 2 < n := by omega
  have h3 : ¬ 3 < n := by omega
  simp [generate_possible_outcomes, outcomeList, h2, h3, perfectOutcome,
    goodOutcome]

theorem generate_ne_nil (dish : String) (d n : Nat) :
    generate_possible_outcomes dish d n ≠ [] := by
  simp [generate_possible_outcomes, outcomeList]

theorem biasAll_high (count : Nat) (b : ℚ) (l : List Outcome)
    (h : ∀ oc ∈ l, 80 ≤ oc.satisfaction) :
    biasAll count b l =
      some (l.map fun oc => { oc with probability := oc.probability + b }) := by
  induction l with
  | nil => rfl
  | cons oc rest ih =>
    have h1 : 80 ≤ oc.satisfaction := h oc (by simp)
    have h2 := ih fun x hx => h x (by simp [hx])
    simp [biasAll, biasOutcome, h1, h2]

theorem selectOutcome_isSome (r : ℚ) :
    ∀ (l : List Outcome) (c : ℚ), r ≤ c + sumProb l → l ≠ [] →
      (selectOutcome r c l).isSome = true := by
  intro l
  induction l with
  | nil => intro c _ hne; exact absurd rfl hne
  | cons oc rest ih =>
    intro c hle _
    by_cases h1 : r ≤ c + oc.probability
    · simp [selectOutcome, h1]
    · have hcons : sumProb (oc :: rest) = oc.probability + sumProb rest :=
        sumProb_cons oc rest
      have hrest : rest ≠ [] := by
        rintro rfl
        rw [hcons, sumProb_nil] at hle
        exact h1 (by linarith)
      have hle2 : r ≤ (c + oc.probability) + sumProb rest := by
        rw [hcons] at hle
        linarith
      simpa [selectOutcome, h1] using ih (c + oc.probability) hle2 hrest

theorem collapse_bonus_success (o : Order) (bonus r : ℚ)
    (hs : o.state = OrderState.SUPERPOSITION) (hb : 0 < bonus)
    (hsat : ∀ oc ∈ o.possible_outcomes, 80 ≤ oc.satisfaction)
    (hsum : sumProb o.possible_outcomes = 1)
    (hne : o.possible_outcomes ≠ []) (hr1 : r < 1) :
    ∃ o2, o.collapse_state bonus r = some o2 ∧
      o2.state = OrderState.COLLAPSED ∧ o2.actual_outcome.isSome = true := by
  have hlen : 0 < o.possible_outcomes.length := List.length_pos.mpr hne
  set bl := o.possible_outcomes.map
    (fun oc => { oc with probability := oc.probability + bonus }) with hbl
  have hba : biasAll o.possible_outcomes.length bonus o.possible_outcomes
      = some bl :=
    biasAll_high o.possible_outcomes.length bonus o.possible_outcomes hsat
  have hsum2 : sumProb bl = 1 + o.possible_outcomes.length * bonus := by
    rw [hbl, sumProb_map_add, hsum]
  have htot : (0:ℚ) < 1 + o.possible_outcomes.length * bonus := by
    have hpb : (0:ℚ) < (o.possible_outcomes.length : ℚ) * bonus := by
      apply mul_pos _ hb
      exact_mod_cast hlen
    linarith
  have htne : sumProb bl ≠ 0 := by
    rw [hsum2]; exact ne_of_gt htot
  have hmodsum : sumProb (bl.map
      (fun oc => { oc with probability := oc.probability / sumProb bl })) = 1 := by
    rw [sumProb_map_div]
    exact div_self htne
  have hmodne : (bl.map
      (fun oc => { oc with probability := oc.probability / sumProb bl })) ≠ [] := by
    rw [hbl]
    intro hcontra
    have hl2 := congrArg List.length hcontra
    simp at hl2
    exact hne hl2
  have hsel : (selectOutcome r 0 (bl.map
      (fun oc => { oc with probability := oc.probability / sumProb bl }))).isSome
      = true := by
    apply selectOutcome_isSome r _ 0 _ hmodne
    rw [hmodsum]
    linarith
  obtain ⟨oc, hoc⟩ := Option.isSome_iff_exists.mp hsel
  refine ⟨{ o with
      possible_outcomes := bl.map
        (fun oc => { oc with probability := oc.probability / sumProb bl }),
      actual_outcome := some oc,
      state := OrderState.COLLAPSED }, ?_, rfl, rfl⟩
  simp only [Order.collapse_state, ne_eq, hs, not_true_eq_false, if_false,
    if_pos hb, hba, if_neg htne, hoc]

theorem clamp_sub_ok {x d : ℚ} (h0 : 0 ≤ x) (h1 : x ≤ 100) (hd : 0 ≤ d) :
    0 ≤ max 0 (x - d) ∧ max 0 (x - d) ≤ 100 :=
  ⟨le_max_left 0 _, max_le (by norm_num) (by linarith)⟩

theorem clamp_minmax_ok (x : ℚ) :
    0 ≤ min 100 (max 0 x) ∧ min 100 (max 0 x) ≤ 100 :=
  ⟨le_min (by norm_num) (le_max_left 0 x), min_le_left _ _⟩

theorem foldl_pen_ok (c : ℚ) (hc : 0 ≤ c) (l : List Nat) :
    ∀ s : ℚ, 0 ≤ s → s ≤ 100 →
      0 ≤ l.foldl (fun s _ => max 0 (s - c)) s ∧
        l.foldl (fun s _ => max 0 (s - c)) s ≤ 100 := by
  induction l with
  | nil => intro s h0 h1; exact ⟨h0, h1⟩
  | cons a l ih =>
    intro s h0 h1
    have h2 := clamp_sub_ok h0 h1 hc
    simpa using ih _ h2.1 h2.2

theorem expireOne_meters (k : Kitchen) (oid : Nat) (h : metersOK k) :
    metersOK (expireOne k oid) := by
  obtain ⟨h1, h2, h3, h4⟩ := h
  have ha := clamp_sub_ok h1 h2 (by norm_num : (0:ℚ) ≤ 5)
  have hb := clamp_sub_ok h3 h4 (by norm_num : (0:ℚ) ≤ 5)
  exact ⟨ha.1, ha.2, hb.1, hb.2⟩

theorem foldl_expire_meters (l : List Nat) :
    ∀ k : Kitchen, metersOK k → metersOK (l.foldl expireOne k) := by
  induction l with
  | nil => intro k h; exact h
  | cons a l ih => intro k h; exact ih _ (expireOne_meters k a h)

theorem trigger_meters (k : Kitchen) (h : metersOK k) (p : EventParams) :
    metersOK (k.trigger_special_event p) := by
  obtain ⟨h1, h2, h3, h4⟩ := h
  cases p with
  | resourceBoost rt amount => exact ⟨h1, h2, h3, h4⟩
  | timelineShift keys assign => exact ⟨h1, h2, h3, h4⟩
  | quantumFluctuation choice =>
    cases choice with
    | none => exact ⟨h1, h2, h3, h4⟩
    | some oid =>
      simp only [Kitchen.trigger_special_event]
      split
      · exact ⟨h1, h2, h3, h4⟩
      · exact ⟨h1, h2, h3, h4⟩
  | realityDistortion loss =>
    have hd : (0:ℚ) ≤ (loss : ℚ) := by positivity
    have hb := clamp_sub_ok h3 h4 hd
    exact ⟨h1, h2, hb.1, hb.2⟩

theorem prepareApply_meters (k : Kitchen) (h : metersOK k) (oid : Nat)
    (rc : ResourceType) (co : Order) (oc : Outcome) :
    metersOK (prepareApply k oid rc co oc) := by
  obtain ⟨h1, h2, h3, h4⟩ := h
  have hs := clamp_minmax_ok (k.customer_satisfaction
    + ((oc.satisfaction : ℚ) - 50) / 10)
  have hstab : 0 ≤ (prepareApply k oid rc co oc).reality_stability ∧
      (prepareApply k oid rc co oc).reality_stability ≤ 100 := by
    by_cases hlt : oc.satisfaction < 50
    · have hd : (0:ℚ) ≤ (50 - (oc.satisfaction : ℚ)) / 10 := by
        have hcast : ((oc.satisfaction : ℚ)) < 50 := by exact_mod_cast hlt
        linarith
      have hcl := clamp_sub_ok h3 h4 hd
      refine ⟨?_, ?_⟩
      · simpa [prepareApply, hlt] using hcl.1
      · simpa [prepareApply, hlt] using hcl.2
    · refine ⟨?_, ?_⟩
      · simpa [prepareApply, hlt] using h3
      · simpa [prepareApply, hlt] using h4
  exact ⟨by simpa [prepareApply] using hs.1, by simpa [prepareApply] using hs.2,
    hstab.1, hstab.2⟩

theorem reject_meters (k : Kitchen) (h : metersOK k) (i : Nat) :
    metersOK (k.reject_order i).1 := by
  obtain ⟨h1, h2, h3, h4⟩ := h
  unfold Kitchen.reject_order
  cases k.available_orders[i]? with
  | none => exact ⟨h1, h2, h3, h4⟩
  | some oid =>
    have ha := clamp_sub_ok h1 h2 (by norm_num : (0:ℚ) ≤ 2)
    exact ⟨ha.1, ha.2, h3, h4⟩

theorem prepare_meters (k : Kitchen) (h : metersOK k) (idx : Nat) (pc : Bool)
    (r : ℚ) (rc : ResourceType) (out : Kitchen × Bool × String)
    (hout : k.prepare_order idx pc r rc = some out) : metersOK out.1 := by
  unfold Kitchen.prepare_order at hout
  split at hout
  · cases hout
    exact h
  next oid heq =>
    dsimp only at hout
    by_cases hst : (k.orders oid).state ≠ OrderState.SUPERPOSITION
    · rw [if_pos hst] at hout
      cases hout
      exact h
    · rw [if_neg hst] at hout
      split at hout
      · cases hout
        exact h
      next =>
        split at hout
        · cases hout
        next co hco =>
          split at hout
          · cases hout
          next oc hoc =>
            cases hout
            exact prepareApply_meters k h _ _ _ _

theorem update_time_meters (k : Kitchen) (h : metersOK k) :
    metersOK k.update_time.1 := by
  unfold Kitchen.update_time
  exact foldl_expire_meters _ _ h

theorem end_day_meters (k : Kitchen) (h : metersOK k) :
    metersOK k.end_day_abandon := by
  obtain ⟨h1, h2, h3, h4⟩ := h
  have hp := foldl_pen_ok 3 (by norm_num) k.active_orders
    k.customer_satisfaction h1 h2
  exact ⟨hp.1, hp.2, h3, h4⟩

theorem advance_meters (k : Kitchen) (h : metersOK k) (ev : Option EventParams) :
    metersOK (k.advance_day ev) := by
  have hk1 : metersOK (match ev with
      | some p => k.trigger_special_event p
      | none => k) := by
    cases ev with
    | none => exact h
    | some p => exact trigger_meters k h p
  obtain ⟨h1, h2, h3, h4⟩ := hk1
  have hgain : (0:ℚ) ≤ 5 + (Int.floor ((match ev with
      | some p => k.trigger_special_event p
      | none => k).customer_satisfaction / 20) : ℚ) := by
    have hfl : (0:ℤ) ≤ Int.floor ((match ev with
        | some p => k.trigger_special_event p
        | none => k).customer_satisfaction / 20) :=
      Int.floor_nonneg.mpr (by positivity)
    have hq : (0:ℚ) ≤ (Int.floor ((match ev with
        | some p => k.trigger_special_event p
        | none => k).customer_satisfaction / 20) : ℚ) := by
      exact_mod_cast hfl
    linarith
  refine ⟨h1, h2, ?_, ?_⟩
  · show (0:ℚ) ≤ min 100 _
    apply le_min (by norm_num)
    linarith
  · exact min_le_left _ _

theorem gen_burger :
    generate_possible_outcomes "Quantum Burger" 1 2 = [perfectW, goodW] := by
  norm_num [generate_possible_outcomes, outcomeList, sumProb, perfectOutcome,
    goodOutcome, perfectW, goodW]

theorem collapse_burger_bonus :
    baseOrder.collapse_state (1/5) 0 = some { baseOrder with
      possible_outcomes := [
        { perfectW with probability := 22/49 },
        { goodW with probability := 27/49 } ],
      actual_outcome := some { perfectW with probability := 22/49 },
      state := OrderState.COLLAPSED } := by
  have hpo : baseOrder.possible_outcomes = [perfectW, goodW] := gen_burger
  have hst : baseOrder.state = OrderState.SUPERPOSITION := rfl
  norm_num [Order.collapse_state, hpo, hst, biasAll, biasOutcome, selectOutcome,
    sumProb, outcomeList, perfectW, goodW, perfectOutcome, goodOutcome]

theorem collapse_burger_nobonus :
    baseOrder.collapse_state 0 0 = some coW := by
  have hpo : baseOrder.possible_outcomes = [perfectW, goodW] := gen_burger
  have hst : baseOrder.state = OrderState.SUPERPOSITION := rfl
  norm_num [Order.collapse_state, hpo, hst, selectOutcome, coW, outcomeList,
    sumProb, perfectW, goodW, perfectOutcome, goodOutcome]

/-! The claim theorems. -/

/-- C1: the claim says the timelines index stays consistent with the
active-orders collection after every membership- or timeline-changing
operation, and that after a Timeline Shift it contains exactly the active
orders. The code violates this: KuantumKitchen.update_time removes an expired
order from active_orders and moves it to failed_orders but never removes it
from the timelines index, so immediately afterwards (kC1b) the index still
holds the FAILED order while the active collection is empty, and a subsequent
Timeline Shift (kC1c) rebuilds the index from the stale entries and therefore
still contains the failed, non-active order. -/
theorem C1_timelines_diverge_from_active :
    kC1a.active_orders = [1000] ∧ kC1a.timelines 2 = [1000] ∧
    kC1b.active_orders = [] ∧ kC1b.failed_orders = [1000] ∧
    (kC1b.orders 1000).state = OrderState.FAILED ∧
    kC1b.timelines 2 = [1000] ∧
    kC1c.active_orders = [] ∧ kC1c.timelines 1 = [1000] ∧
    (kC1c.orders 1000).state = OrderState.FAILED := by
  refine ⟨rfl, rfl, rfl, rfl, rfl, rfl, rfl, rfl, rfl⟩

/-- C3: the claim says collapse_state operates on a copy and leaves
possible_outcomes unchanged for every bonusProbability. The code violates it:
list.copy() is shallow, the outcome dicts are shared, and a positive bonus
rewrites their probabilities in place. On a freshly generated two-outcome
order (probabilities 3/7 and 4/7) a collapse with bonus 0.2 leaves
possible_outcomes with probabilities 22/49 and 27/49. -/
theorem C3_collapse_mutates_possible_outcomes :
    oC3.possible_outcomes.map Outcome.probability = [3/7, 4/7] ∧
    ((oC3.collapse_state (1/5) 0).map fun o2 =>
      o2.possible_outcomes.map Outcome.probability) = some [22/49, 27/49] ∧
    ([(3:ℚ)/7, 4/7] ≠ [(22:ℚ)/49, 27/49]) := by
  have hpo : oC3.possible_outcomes = [perfectW, goodW] := gen_burger
  have hcol := collapse_burger_bonus
  refine ⟨?_, ?_, ?_⟩
  · rw [hpo]
    norm_num [perfectW, goodW, perfectOutcome, goodOutcome]
  · show ((baseOrder.collapse_state (1/5) 0).map fun o2 =>
      o2.possible_outcomes.map Outcome.probability) = some [22/49, 27/49]
    rw [hcol]
    norm_num [perfectW, goodW, perfectOutcome, goodOutcome]
  · intro hcon
    injection hcon with h1 _
    norm_num at h1

/-- C4: for every generated order - any dish, any difficulty, any
num_outcomes draw - the probabilities of possible_outcomes sum to exactly 1
(hence within 1e-9) right after generation, because each probability is
divided by the subset total. -/
theorem C4_generated_probabilities_sum_to_one (dish : String)
    (difficulty numOutcomes : Nat) :
    sumProb (generate_possible_outcomes dish difficulty numOutcomes) = 1 :=
  sumProb_generate_eq_one dish difficulty numOutcomes

/-- C6: update_time on a SUPERPOSITION order decrements time_remaining by
exactly 1; if the new value is at most 0 the order becomes FAILED and the
call returns true, otherwise it returns false and the order stays in
SUPERPOSITION. -/
theorem C6_update_time_decrement_and_expiry (o : Order)
    (h : o.state = OrderState.SUPERPOSITION) :
    o.update_time.1.time_remaining = o.time_remaining - 1 ∧
    (o.time_remaining - 1 ≤ 0 →
      o.update_time.2 = true ∧ o.update_time.1.state = OrderState.FAILED) ∧
    (0 < o.time_remaining - 1 →
      o.update_time.2 = false ∧
        o.update_time.1.state = OrderState.SUPERPOSITION) := by
  unfold Order.update_time
  by_cases hle : o.time_remaining - 1 ≤ 0
  · refine ⟨by simp [hle, h], fun _ => ⟨by simp [hle, h], by simp [hle, h]⟩,
      fun hgt => absurd hle (by omega)⟩
  · refine ⟨by simp [hle, h], fun hle2 => absurd hle2 hle,
      fun _ => ⟨by simp [hle, h], by simp [hle, h]⟩⟩

/-- C6 witness: with time_remaining = 1 the call returns true and the order
fails; with time_remaining = 2 it returns false, time_remaining becomes 1 and
the state stays SUPERPOSITION. -/
theorem C6_witness :
    oC6A.update_time.2 = true ∧ oC6A.update_time.1.state = OrderState.FAILED ∧
    oC6B.update_time.2 = false ∧ oC6B.update_time.1.time_remaining = 1 ∧
    oC6B.update_time.1.state = OrderState.SUPERPOSITION := by
  have hA := C6_update_time_decrement_and_expiry oC6A rfl
  have hB := C6_update_time_decrement_and_expiry oC6B rfl
  refine ⟨(hA.2.1 (by decide)).1, (hA.2.1 (by decide)).2,
    (hB.2.2 (by decide)).1, ?_, (hB.2.2 (by decide)).2⟩
  rw [hB.1]
  decide

/-- C7: collapse_state on an order not in SUPERPOSITION returns the order
unchanged (same state, actual_outcome, possible_outcomes, time_remaining) for
every bonus and every random draw. -/
theorem C7_collapse_noop_outside_superposition (o : Order) (bonus r : ℚ)
    (h : o.state ≠ OrderState.SUPERPOSITION) :
    o.collapse_state bonus r = some o := by
  unfold Order.collapse_state
  rw [if_pos h]

/-- C7 witness: a COLLAPSED order is returned unchanged. -/
theorem C7_witness : oC7W.collapse_state (1/2) (1/2) = some oC7W :=
  C7_collapse_noop_outside_superposition oC7W (1/2) (1/2) (by decide)

/-- C9: the deterministic quantum-state simulation maps initial state ket-0
under [X] to ket-1 and under [X, X] back to ket-0; the stored puzzle solution
is exactly this computed final state, and check_solution compares the
stripped, lower-cased answer with the lower-cased solution. -/
theorem C9_quantum_state_puzzle (a : String) :
    quantum_final_state "|0⟩" ["X"] = "|1⟩" ∧
    quantum_final_state "|0⟩" ["X", "X"] = "|0⟩" ∧
    (setup_quantum_puzzle "|0⟩" ["X"]).solution = "|1⟩" ∧
    (setup_quantum_puzzle "|0⟩" ["X", "X"]).solution = "|0⟩" ∧
    (setup_quantum_puzzle "|0⟩" ["X"]).check_solution a =
      (pyLower (pyStrip a) == pyLower "|1⟩") := by
  refine ⟨by decide, by decide, by decide, by decide, ?_⟩
  show (pyLower (pyStrip a) == pyLower (setup_quantum_puzzle "|0⟩" ["X"]).solution)
    = (pyLower (pyStrip a) == pyLower "|1⟩")
  have hsol : (setup_quantum_puzzle "|0⟩" ["X"]).solution = "|1⟩" := by decide
  rw [hsol]

/-- C2: collapsing a SUPERPOSITION order whose generated possible_outcomes
list has exactly 2 elements (numOutcomes draw at most 2) with a positive
bonus never divides by zero and never reaches the subtraction of
bonus / (count - 2): both generated outcomes have satisfaction at least 80,
so the bias loop performs only the additions, and the collapse terminates
normally with a selected outcome. -/
theorem C2_two_outcome_collapse_safe (dish : String)
    (difficulty numOutcomes : Nat) (o : Order) (bonus r : ℚ)
    (hgen : o.possible_outcomes =
      generate_possible_outcomes dish difficulty numOutcomes)
    (hn : numOutcomes ≤ 2) (hs : o.state = OrderState.SUPERPOSITION)
    (hb : 0 < bonus) (hr0 : 0 ≤ r) (hr1 : r < 1) :
    o.possible_outcomes.length = 2 ∧
    (∀ oc ∈ o.possible_outcomes, 80 ≤ oc.satisfaction) ∧
    biasAll o.possible_outcomes.length bonus o.possible_outcomes =
      some (o.possible_outcomes.map fun oc =>
        { oc with probability := oc.probability + bonus }) ∧
    ∃ o2, o.collapse_state bonus r = some o2 ∧
      o2.state = OrderState.COLLAPSED ∧ o2.actual_outcome.isSome = true := by
  have hsat : ∀ oc ∈ o.possible_outcomes, 80 ≤ oc.satisfaction := by
    rw [hgen]; exact generate_two_sats dish difficulty numOutcomes hn
  have hlen : o.possible_outcomes.length = 2 := by
    rw [hgen]; exact generate_two_length dish difficulty numOutcomes hn
  have hsum : sumProb o.possible_outcomes = 1 := by
    rw [hgen]; exact sumProb_generate_eq_one dish difficulty numOutcomes
  have hne : o.possible_outcomes ≠ [] := by
    rw [hgen]; exact generate_ne_nil dish difficulty numOutcomes
  exact ⟨hlen, hsat, biasAll_high _ bonus _ hsat,
    collapse_bonus_success o bonus r hs hb hsat hsum hne hr1⟩

/-- C2 witness: a freshly generated difficulty-1 two-outcome order collapsed
with bonus 0.2 and draw 0.5. -/
theorem C2_witness :
    oC2W.possible_outcomes.length = 2 ∧
    (∀ oc ∈ oC2W.possible_outcomes, 80 ≤ oc.satisfaction) ∧
    biasAll oC2W.possible_outcomes.length (1/5) oC2W.possible_outcomes =
      some (oC2W.possible_outcomes.map fun oc =>
        { oc with probability := oc.probability + 1/5 }) ∧
    ∃ o2, oC2W.collapse_state (1/5) (1/2) = some o2 ∧
      o2.state = OrderState.COLLAPSED ∧ o2.actual_outcome.isSome = true :=
  C2_two_outcome_collapse_safe "Quantum Burger" 1 2 oC2W (1/5) (1/2) rfl
    (by norm_num) rfl (by norm_num) (by norm_num) (by norm_num)

/-- C5: the resource debit of prepare_order is all-or-nothing. The resource
check (firstInsufficient) succeeds exactly when every balance meets its
requirement; when some balance is short, prepare_order returns the unchanged
kitchen with success = false and the insufficient-resources message; when all
balances suffice and the call returns, it returns success = true with every
requirement amount subtracted (plus only the documented refund), with no
other intermediate state observable. -/
theorem C5_prepare_all_or_nothing (k : Kitchen) (idx oid : Nat) (pc : Bool)
    (r : ℚ) (rc : ResourceType)
    (hoid : k.active_orders[idx]? = some oid)
    (hstate : (k.orders oid).state = OrderState.SUPERPOSITION) :
    (firstInsufficient k.resources (k.orders oid).resource_requirements = none ↔
      ∀ t, ((k.orders oid).resource_requirements t : Int) ≤ k.resources t) ∧
    (∀ t0, firstInsufficient k.resources (k.orders oid).resource_requirements
        = some t0 →
      k.prepare_order idx pc r rc = some (k, false, "Not enough " ++ t0.value)) ∧
    (firstInsufficient k.resources (k.orders oid).resource_requirements = none →
      ∀ k2 b m, k.prepare_order idx pc r rc = some (k2, b, m) →
        b = true ∧
        ∃ oc, (Order.collapse_state (k.orders oid)
            (if pc then (1/5:ℚ) else 0) r).bind Order.actual_outcome
            = some oc ∧
          ∀ t, k2.resources t =
            k.resources t - ((k.orders oid).resource_requirements t : Int)
              + refundAmt oc rc t) := by
  refine ⟨?_, ?_, ?_⟩
  · unfold firstInsufficient
    rw [List.find?_eq_none]
    constructor
    · intro hall t
      have ht : t ∈ resourceOrder := by cases t <;> simp [resourceOrder]
      have h2 := hall t ht
      simp only [decide_eq_true_eq] at h2
      exact not_lt.mp h2
    · intro hall t _
      simp only [decide_eq_true_eq]
      exact not_lt.mpr (hall t)
  · intro t0 h0
    simp [Kitchen.prepare_order, hoid, hstate, h0]
  · intro hnone k2 b m hout
    simp only [Kitchen.prepare_order, hoid, hstate, hnone, ne_eq,
      not_true_eq_false, if_false] at hout
    cases hc : Order.collapse_state (k.orders oid)
        (if pc then (1/5:ℚ) else 0) r with
    | none =>
      rw [hc] at hout
      cases hout
    | some co =>
      rw [hc] at hout
      dsimp only at hout
      cases hoc : co.actual_outcome with
      | none =>
        rw [hoc] at hout
        cases hout
      | some oc =>
        rw [hoc] at hout
        simp only [Option.some.injEq, Prod.mk.injEq] at hout
        obtain ⟨hk2, hb2, hm⟩ := hout
        refine ⟨hb2.symm, oc, by simp [hoc], fun t => ?_⟩
        rw [← hk2]
        simp only [prepareApply, refundAmt]
        by_cases h80 : 80 ≤ oc.satisfaction <;>
      by_cases h90 : 90 ≤ oc.satisfaction <;>
      by_cases ht : t = rc <;>
      simp [h80, h90, ht] <;>
      ring

/-- C5 witness: the spec example, balance {Quantum Energy: 1} against a
requirement of 2, fails with the insufficient-resources message and the
kitchen unchanged. -/
theorem C5_witness :
    kC5W.prepare_order 0 false 0 ResourceType.QUANTUM_ENERGY =
      some (kC5W, false, "Not enough Quantum Energy") :=
  (C5_prepare_all_or_nothing kC5W 0 1000 false 0 ResourceType.QUANTUM_ENERGY
    rfl rfl).2.1 ResourceType.QUANTUM_ENERGY rfl

/-- C8: starting from any state with both meters in [0,100], every mutating
operation of the world state (order rejection, order preparation, order
expiry inside update_time, delivery-phase abandonment, daily regeneration
inside advance_day, and every special event) leaves customer satisfaction
and reality stability in [0,100]. -/
theorem C8_meters_stay_clamped (k : Kitchen) (h : metersOK k) :
    (∀ i, metersOK (k.reject_order i).1) ∧
    (∀ idx pc r rc out, k.prepare_order idx pc r rc = some out →
      metersOK out.1) ∧
    metersOK k.update_time.1 ∧
    metersOK k.end_day_abandon ∧
    (∀ p, metersOK (k.trigger_special_event p)) ∧
    (∀ ev, metersOK (k.advance_day ev)) :=
  ⟨fun i => reject_meters k h i,
   fun idx pc r rc out hout => prepare_meters k h idx pc r rc out hout,
   update_time_meters k h, end_day_meters k h,
   fun p => trigger_meters k h p, fun ev => advance_meters k h ev⟩

/-- C8 witness: a Reality Distortion event of 10 on the initial kitchen
keeps both meters in range. -/
theorem C8_witness :
    metersOK (baseKitchen.trigger_special_event
      (EventParams.realityDistortion 10)) :=
  (C8_meters_stay_clamped baseKitchen
    (by norm_num [metersOK, baseKitchen])).2.2.2.2.1
    (EventParams.realityDistortion 10)

/-- C10: every successful prepare_order call additionally shifts customer
satisfaction by (satisfaction of the collapsed outcome - 50) / 10, clamped
to [0,100] - for instance +5 for a Perfect outcome (satisfaction 100) and
-3 for a Poor outcome (satisfaction 20) - a per-preparation satisfaction
mutation performed at src/main.py lines 444-446. -/
theorem C10_prepare_shifts_satisfaction (k : Kitchen) (idx oid : Nat)
    (pc : Bool) (r : ℚ) (rc : ResourceType) (oc : Outcome)
    (hoid : k.active_orders[idx]? = some oid)
    (hstate : (k.orders oid).state = OrderState.SUPERPOSITION)
    (hres : firstInsufficient k.resources
      (k.orders oid).resource_requirements = none)
    (hbind : (Order.collapse_state (k.orders oid)
      (if pc then (1/5:ℚ) else 0) r).bind Order.actual_outcome = some oc) :
    ∀ k2 b m, k.prepare_order idx pc r rc = some (k2, b, m) →
      k2.customer_satisfaction =
        min 100 (max 0 (k.customer_satisfaction
          + ((oc.satisfaction : ℚ) - 50) / 10)) := by
  intro k2 b m hout
  obtain ⟨co, hc, hoc⟩ := Option.bind_eq_some.mp hbind
  simp only [Kitchen.prepare_order, hoid, hstate, hres, ne_eq,
    not_true_eq_false, if_false, hc, hoc, Option.some.injEq,
    Prod.mk.injEq] at hout
  obtain ⟨hk2, _, _⟩ := hout
  rw [← hk2]
  rfl

/-- C10 witness: preparing the accepted two-outcome order with a failed
puzzle and draw 0 collapses it to the Perfect outcome and moves satisfaction
from 50 to min(100, max(0, 50 + 5)) = 55. -/
theorem C10_witness :
    ∃ p, kC10.prepare_order 0 false 0 ResourceType.QUANTUM_ENERGY = some p ∧
      p.1.customer_satisfaction = 55 := by
  have hcol : Order.collapse_state (kC10.orders 1000)
      (if false then (1/5:ℚ) else 0) 0 = some coW := collapse_burger_nobonus
  have hbind : (Order.collapse_state (kC10.orders 1000)
      (if false then (1/5:ℚ) else 0) 0).bind Order.actual_outcome
      = some perfectW := by
    rw [hcol]; rfl
  have h := C10_prepare_shifts_satisfaction kC10 0 1000 false 0
    ResourceType.QUANTUM_ENERGY perfectW rfl rfl rfl hbind
  have hp : kC10.prepare_order 0 false 0 ResourceType.QUANTUM_ENERGY =
      some (prepareApply kC10 1000 ResourceType.QUANTUM_ENERGY coW perfectW,
        true, "Prepared order. Earned points.") := by
    have hget : kC10.active_orders[0]? = some 1000 := rfl
    have hst : (kC10.orders 1000).state = OrderState.SUPERPOSITION := rfl
    have hfi : firstInsufficient kC10.resources
        (kC10.orders 1000).resource_requirements = none := rfl
    have hcol0 : (kC10.orders 1000).collapse_state 0 0 = some coW :=
      collapse_burger_nobonus
    have hao : coW.actual_outcome = some perfectW := rfl
    have hsat : ¬ perfectW.satisfaction < 50 := by
      norm_num [perfectW, perfectOutcome]
    simp [Kitchen.prepare_order, hget, hst, hfi, hcol0, hao, hsat]
  refine ⟨_, hp, ?_⟩
  have h2 := h _ _ _ hp
  rw [h2]
  norm_num [kC10, baseKitchen, perfectW, perfectOutcome, min_def, max_def]
